import Mathlib

/-!
Verification development for the langflow frontend pieces: the API sample-code
generators (`getJsApiCode`, `getNewJsApiCode`), the bulk flow-duplication hook
(`useDuplicateFlows`), and the file-manager row component
(`FileRendererComponent`).  The TypeScript sources are shallowly embedded:
string templating becomes Lean string concatenation, JavaScript truthiness and
`JSON.stringify` are modelled explicitly, event handlers become step functions
on an explicit component state, and the promise fan-out of the duplication hook
becomes a timed event trace.
-/

namespace Langflow

/-! ## JavaScript platform modelling -/

/-- A string of `n` spaces (used by the `JSON.stringify` indentation model). -/
def spacesN : Nat → String
  | 0 => ""
  | n + 1 => " " ++ spacesN n

/-- JSON string escaping for a single character, as `JSON.stringify` performs
on string values (quote, backslash and newline are the cases that can occur in
the values modelled here). -/
def jsEscapeChar : Char → String
  | '"' => "\\\""
  | '\\' => "\\\\"
  | '\n' => "\\n"
  | c => String.singleton c

/-- A JSON-quoted string: surrounding double quotes plus escaping. -/
def jsQuote (s : String) : String :=
  "\"" ++ String.join (s.toList.map jsEscapeChar) ++ "\""

mutual

/-- A JSON value as passed to `JSON.stringify` for the tweaks object: null,
booleans, integer numbers, strings and objects (field lists). -/
inductive JsonVal where
  | null
  | bool (b : Bool)
  | num (n : Int)
  | str (s : String)
  | obj (fields : JsonFields)

/-- The field list of a JSON object. -/
inductive JsonFields where
  | nil
  | cons (key : String) (value : JsonVal) (rest : JsonFields)

end

mutual

/-- Model of `JSON.stringify(v, null, ind)` at nesting level `lvl`
(the top-level call has `lvl = 0`): objects print one field per line,
indented by `ind * (lvl + 1)` spaces, with the closing brace indented by
`ind * lvl` spaces; the empty object prints as a bare brace pair. -/
def jsonStringify (ind lvl : Nat) : JsonVal → String
  | .null => "null"
  | .bool b => if b then "true" else "false"
  | .num n => toString n
  | .str s => jsQuote s
  | .obj .nil => "\x7b\x7d"
  | .obj (.cons k v rest) =>
      "\x7b\n" ++
        String.intercalate ",\n" (jsonFieldLines ind (lvl + 1) (.cons k v rest)) ++
        "\n" ++ spacesN (ind * lvl) ++ "\x7d"

/-- One printed line per object field, indented by `ind * lvl` spaces. -/
def jsonFieldLines (ind lvl : Nat) : JsonFields → List String
  | .nil => []
  | .cons k v rest =>
      (spacesN (ind * lvl) ++ jsQuote k ++ ": " ++ jsonStringify ind lvl v) ::
        jsonFieldLines ind lvl rest

end

/-- JavaScript truthiness of an optional JSON value (`undefined`, `null`,
`false`, `0` and the empty string are falsy; objects are always truthy). -/
def jsTruthy : Option JsonVal → Bool
  | none => false
  | some .null => false
  | some (.bool b) => b
  | some (.num n) => decide (n ≠ 0)
  | some (.str s) => decide (s ≠ "")
  | some (.obj _) => true

/-- JavaScript `a || b` for an optional string `a` (undefined and the empty
string are falsy, so they fall through to `b`). -/
def jsOrString : Option String → String → String
  | none, d => d
  | some s, d => if s = "" then d else s

/-- JavaScript falsiness of an optional string (`!a`). -/
def jsFalsyStr : Option String → Bool
  | none => true
  | some s => decide (s = "")

/-- JavaScript `a ? a : b` for an optional string `a`. -/
def jsOrElseStr (o : Option String) (d : String) : String :=
  if jsFalsyStr o then d else o.getD d

/-- Does the character list contain `pat` as a contiguous sublist? -/
def hasSub (pat : List Char) : List Char → Bool
  | [] => pat.isEmpty
  | c :: rest => pat.isPrefixOf (c :: rest) || hasSub pat rest

/-- Does the string `s` contain `pat` as a substring? -/
def strHasSub (s pat : String) : Bool :=
  hasSub pat.toList s.toList

/-! ## The flow store and window location read by `getJsApiCode` -/

/-- An input or output port declared by the flow, as stored in the flow store
(`useFlowStore.getState().inputs` / `.outputs`); only the `type` tag is
consulted by the code generator. -/
structure Port where
  id : String
  type : String
deriving DecidableEq

/-- The slice of the global flow store that `getJsApiCode` can reach through
`useFlowStore.getState()`: the declared input and output ports, plus the node
list (read elsewhere by `ApiModal` and untouched by the generator). -/
structure FlowStoreState where
  inputs : List Port
  outputs : List Port
  nodes : List String
deriving DecidableEq

/-- The `window.location` fields read by the generators. -/
structure WindowLocation where
  protocol : String
  host : String
deriving DecidableEq

/-- The parameter record of `getJsApiCode` (TypeScript type `GetCodeType`). -/
structure GetCodeType where
  flowId : String
  isAuth : Bool
  tweaksBuildedObject : Option JsonVal
  endpointName : Option String
  activeTweaks : Bool

/-- The part of the `getJsApiCode` template strictly before the spliced
`output_type` literal: the optional `inputValue` preamble, the `fetch` call
head with URL and `stream=false` query, the method and header lines (with the
conditional `x-api-key` line) and the opening of the JSON body up to and
including the `output_type:` label. -/
def jsApiCodeHead (p : GetCodeType) (loc : WindowLocation) : String :=
  (if p.activeTweaks then ""
   else "let inputValue = \"\"; // Insert input value here\n\n") ++
  "fetch(\n  \"" ++ loc.protocol ++ "//" ++ loc.host ++ "/api/v1/run/" ++
  jsOrString p.endpointName p.flowId ++
  "?stream=false\",\n  \x7b\n    method: \"POST\",\n    headers: \x7b\n      \"Authorization\": \"Bearer <TOKEN>\",\n      \"Content-Type\": \"application/json\"," ++
  (if p.isAuth then "\n\t\t\t\"x-api-key\": <your api key>" else "") ++
  "\n    \x7d,\n    body: JSON.stringify(\x7b" ++
  (if p.activeTweaks then "" else "\n\t\t\tinput_value: inputValue, ") ++
  "\n      output_type: "

/-- The part of the `getJsApiCode` template strictly after the spliced
`input_type` literal: the `tweaks` field (the stringified tweaks object, or a
bare brace pair when the tweaks argument is falsy) and the closing
`fetch` boilerplate. -/
def jsApiCodeTail (p : GetCodeType) : String :=
  ",\n      tweaks: " ++
  (if jsTruthy p.tweaksBuildedObject then
     jsonStringify 8 0 (p.tweaksBuildedObject.getD .null)
   else "\x7b\x7d") ++
  "\n    \x7d),\n  \x7d,\n)\n  .then(res => res.json())\n  .then(data => console.log(data))\n  .catch(error => console.error(\x27Error:\x27, error));\n"

/-- Embedding of `getJsApiCode` (part_000): besides its parameter record it
reads the flow store (to decide the chat/text input and output type tags) and
the window location (for the URL); the template is the head, the
`output_type` literal chosen by the outputs, the `input_type` label, the
`input_type` literal chosen by the inputs, and the tail, in source order. -/
def getJsApiCode (p : GetCodeType) (store : FlowStoreState)
    (loc : WindowLocation) : String :=
  jsApiCodeHead p loc ++
  (if store.outputs.any (fun output => output.type == "ChatOutput")
   then "\"chat\"" else "\"text\"") ++
  ",\n      input_type: " ++
  (if store.inputs.any (fun input => input.type == "ChatInput")
   then "\"chat\"" else "\"text\"") ++
  jsApiCodeTail p

/-- The parameter record of `getNewJsApiCode`. -/
structure NewApiCodeParams where
  streaming : Bool
  flowId : String
  isAuthenticated : Bool
  input_value : String
  input_type : String
  output_type : String
  tweaksObject : Option JsonVal
  activeTweaks : Bool

/-- Embedding of `getNewJsApiCode` (part_000): builds the payload literal,
the `options` literal (method POST, headers with the conditional `x-api-key`,
the stringified payload as body) and then the `fetch` line — which, exactly as
in the source, passes only the URL string and not the `options` object. -/
def getNewJsApiCode (p : NewApiCodeParams) (loc : WindowLocation) : String :=
  let apiUrl := loc.protocol ++ "//" ++ loc.host ++ "/api/v1/run/" ++ p.flowId
  let tweaksString :=
    if jsTruthy p.tweaksObject && p.activeTweaks then
      jsonStringify 2 0 (p.tweaksObject.getD .null)
    else "\x7b\x7d"
  "const payload = \x7b\n    \"input_value\": \"" ++ p.input_value ++
  "\",\n    \"output_type\": \"" ++ p.output_type ++
  "\",\n    \"input_type\": \"" ++ p.input_type ++ "\"" ++
  (if p.activeTweaks && jsTruthy p.tweaksObject then
     ",\n    \"tweaks\": " ++ tweaksString
   else "") ++
  "\n\x7d;\nconst options = \x7b\n    method: \x27POST\x27,\n    headers: \x7b\n        \x27Content-Type\x27: \x27application/json\x27" ++
  (if p.isAuthenticated then ",\n        \"x-api-key\": \"YOUR-API-KEY\"" else "") ++
  "\n    \x7d,\n    body: JSON.stringify(payload)\n\x7d;\nfetch(\x27" ++
  apiUrl ++ "?stream=" ++ (if p.streaming then "true" else "false") ++
  "\x27)\n    .then(response => response.json())\n    .then(response => console.log(response))\n    .catch(err => console.error(err));\n    "

/-! ## The bulk duplicate hook (`useDuplicateFlows`, part_002)

`handleDuplicate` maps `addFlow(true, allFlows.find(...))` over the selected
flow ids, wraps the resulting promises in `Promise.all`, and chains a single
`.then` continuation (refresh, conditional folder reload, selection clearing,
success toast) with no rejection handler.  The execution is modelled as a
timed event trace: each `addFlow` call is issued at time `0`; the promise of
call `i` settles at time `settleTime i` with outcome `outcome i` (`true` =
fulfilled); `Promise.all` resolves after the last settlement, so the
continuation events carry a time strictly greater than every settlement time;
when some call rejects, the combined promise rejects with no handler attached,
which surfaces as a single unhandled-rejection event. -/

/-- A stored flow: its id plus an opaque payload standing for the rest of the
flow record handed to `addFlow`. -/
structure FlowRecord where
  id : String
  payload : String
deriving DecidableEq

/-- The observable calls `handleDuplicate` can make, plus the platform's
default unhandled-rejection outcome. -/
inductive DupEvent where
  | addFlowCall (newProject : Bool) (flow : Option FlowRecord)
  | resetFilter
  | getFoldersApi (refetch : Bool)
  | getFolderById (id : String)
  | setSelectedFlows (sel : List String)
  | setSuccessData (title : String)
  | unhandledRejection
deriving DecidableEq

/-- An event stamped with the time at which it runs. -/
structure TimedEvent where
  time : Nat
  event : DupEvent
deriving DecidableEq

/-- The `addFlow` calls issued synchronously by `handleDuplicate`: one per
selected id, in selection order, each passing `true` and
`allFlows.find(flow => flow.id === selectedFlow)`. -/
def dupCalls (selected : List String) (allFlows : List FlowRecord) :
    List TimedEvent :=
  selected.map fun sf =>
    ⟨0, .addFlowCall true (allFlows.find? fun flow => flow.id == sf)⟩

/-- The time at which `Promise.all` over `n` requests resolves: the latest
settlement time. -/
def dupResolveTime (n : Nat) (settleTime : Nat → Nat) : Nat :=
  (Finset.range n).sup settleTime

/-- The `.then` continuation of `handleDuplicate`, run at time `t`: reset the
filter, refetch the folders, reload the folder when the current folder id is
falsy or equals the collection id, clear the selection, show the success
toast. -/
def dupContinuation (folderId : Option String) (myCollectionId : String)
    (t : Nat) : List TimedEvent :=
  [⟨t, .resetFilter⟩, ⟨t, .getFoldersApi true⟩] ++
  (if jsFalsyStr folderId || decide (folderId = some myCollectionId) then
     [⟨t, .getFolderById (jsOrElseStr folderId myCollectionId)⟩]
   else []) ++
  [⟨t, .setSelectedFlows []⟩,
   ⟨t, .setSuccessData "Flows duplicated successfully"⟩]

/-- The time at which `Promise.all` rejects when some request fails: the
earliest settlement time among the rejected requests. -/
def dupRejectTime (n : Nat) (outcome : Nat → Bool) (settleTime : Nat → Nat) :
    Nat :=
  ((((List.range n).filter fun i => !(outcome i)).map settleTime).min?).getD 0

/-- The full timed trace of one `handleDuplicate` invocation: the `addFlow`
fan-out, then either the continuation (when every request fulfilled) or the
platform's unhandled rejection (when some request rejected — the chain has no
rejection handler). -/
def useDuplicateFlowsTrace (selected : List String)
    (allFlows : List FlowRecord) (folderId : Option String)
    (myCollectionId : String) (outcome : Nat → Bool)
    (settleTime : Nat → Nat) : List TimedEvent :=
  dupCalls selected allFlows ++
  (if (List.range selected.length).all outcome then
     dupContinuation folderId myCollectionId
       (dupResolveTime selected.length settleTime + 1)
   else
     [⟨dupRejectTime selected.length outcome settleTime + 1,
       .unhandledRejection⟩])

/-- The arguments of the `addFlow` calls appearing in a trace, in order. -/
def addFlowArgs (tr : List TimedEvent) : List (Option FlowRecord) :=
  tr.filterMap fun te =>
    match te.event with
    | .addFlowCall _ f => some f
    | _ => none

/-- Is this event an `addFlow` call? -/
def isAddFlowEvent : DupEvent → Bool
  | .addFlowCall _ _ => true
  | _ => false

/-! ## The file-manager row (`FileRendererComponent`)

The component keeps two pieces of local state (`openRename`, `newName`); its
handlers are embedded as step functions from the props and the current state
to a new state plus the list of prop callbacks invoked.  The
`useEffect(..., [openRename])` that copies `file.name` into the buffer
whenever `openRename` changes is applied as part of every transition that
flips `openRename`. -/

/-- The file descriptor consulted by the component: id, display name, path
and the optional upload progress (a fraction, with `-1` as the failure
sentinel; an absent value means the upload is complete).  `NaN` progress
values are outside this rational model. -/
structure FileType where
  id : String
  name : String
  path : String
  progress : Option ℚ
deriving DecidableEq

/-- JavaScript truthiness of the optional numeric `progress` field
(`undefined` and `0` are falsy). -/
def progressTruthy : Option ℚ → Bool
  | none => false
  | some q => decide (q ≠ 0)

/-- The component's local state: whether the rename editor is open, and the
rename input buffer. -/
structure CompState where
  openRename : Bool
  newName : String
deriving DecidableEq

/-- The prop callbacks the component can invoke. -/
inductive Callback where
  | fileSelect (path : String)
  | rename (id : String) (newName : String)
  | remove (path : String)
deriving DecidableEq

/-- The `useEffect` with dependency `[openRename]`: whenever a transition
changes `openRename`, the buffer is reset to be the file's current name. -/
def applyRenameEffect (file : FileType) (st st' : CompState) : CompState :=
  if st'.openRename ≠ st.openRename then { st' with newName := file.name }
  else st'

/-- The row's `onClick`: when `progress` is falsy, invoke `handleFileSelect`
(if that prop is present) with the file's path. -/
def rowClickCalls (file : FileType) (hasHandleFileSelect : Bool) :
    List Callback :=
  if progressTruthy file.progress then []
  else if hasHandleFileSelect then [.fileSelect file.path] else []

/-- The name span's `onDoubleClick`: stop propagation; when `progress` is
falsy, open the rename editor (the span is rendered only while the editor is
closed). -/
def nameDoubleClick (file : FileType) (st : CompState) : CompState :=
  if progressTruthy file.progress then st
  else applyRenameEffect file st { st with openRename := true }

/-- `handleOpenRename` (context-menu rename): open the editor only when the
`handleRename` prop is present. -/
def handleOpenRename (file : FileType) (hasHandleRename : Bool)
    (st : CompState) : CompState :=
  if hasHandleRename then applyRenameEffect file st { st with openRename := true }
  else st

/-- The rename input's `onChange`: replace the buffer with the typed text. -/
def renameInputChange (st : CompState) (text : String) : CompState :=
  { st with newName := text }

/-- The rename input's `onBlur`: close the editor and invoke `handleRename`
(if present) with the file's id and the current buffer. -/
def renameInputBlur (file : FileType) (hasHandleRename : Bool)
    (st : CompState) : CompState × List Callback :=
  (applyRenameEffect file st { st with openRename := false },
   if hasHandleRename then [.rename file.id st.newName] else [])

/-- The rename input's `onKeyDown`: on Enter, behave exactly like `onBlur`
(close the editor and invoke `handleRename`); any other key does nothing. -/
def renameInputKeyDown (file : FileType) (hasHandleRename : Bool)
    (st : CompState) (key : String) : CompState × List Callback :=
  if key = "Enter" then renameInputBlur file hasHandleRename st else (st, [])

/-- `file.path.split(".").pop() ?? ""`: the substring after the last dot, or
the whole path when there is no dot. -/
def fileTypeOf (path : String) : String :=
  (path.splitOn ".").getLastD ""

/-- An entry of the `FILE_ICONS` table: an icon name and a color class. -/
structure IconEntry where
  icon : String
  color : String
deriving DecidableEq

/-- What the component renders in front of the file name: either the rounded
progress percentage, or an icon with an optional color class. -/
inductive LeadingVisual where
  | percent (n : Int)
  | icon (name : String) (colorClass : Option String)
deriving DecidableEq

/-- JavaScript `Math.round`: round half toward positive infinity. -/
def jsRound (q : ℚ) : ℤ :=
  Rat.floor (q + 1 / 2)

/-- The leading visual of the row, from lines 67–81 of the component: a
percentage while an upload is in progress (`progress` present and not `-1`),
otherwise the icon `FILE_ICONS[type]?.icon ?? "File"` whose color class is the
placeholder color when `progress` is present (the failure case) and
`FILE_ICONS[type]?.color` otherwise.  The `FILE_ICONS` table lives outside the
given sources, so it is passed in as an arbitrary partial map. -/
def leadingVisual (icons : String → Option IconEntry) (file : FileType) :
    LeadingVisual :=
  match file.progress with
  | some q =>
      if q ≠ -1 then .percent (jsRound (q * 100))
      else
        .icon (((icons (fileTypeOf file.path)).map IconEntry.icon).getD "File")
          (some "text-placeholder-foreground")
  | none =>
      .icon (((icons (fileTypeOf file.path)).map IconEntry.icon).getD "File")
        ((icons (fileTypeOf file.path)).map IconEntry.color)

/-- A rendered click handler: whether it stops propagation, and the prop
callbacks it invokes. -/
structure ClickHandler where
  stopsPropagation : Bool
  calls : List Callback
deriving DecidableEq

/-- The failed-upload notice: its rendered text and the handler attached to
the "try again?" span. -/
structure FailedNotice where
  text : String
  tryAgain : ClickHandler
deriving DecidableEq

/-- Lines 121–135 of the component: when `progress` is present and equals the
`-1` sentinel, render the failure notice whose "try again?" span has a click
handler that stops propagation and does nothing else; otherwise render
nothing. -/
def failedNotice (file : FileType) : Option FailedNotice :=
  if file.progress = some (-1) then
    some { text := "Upload failed, " ++ "try again?",
           tryAgain := { stopsPropagation := true, calls := [] } }
  else none

/-! ## Shared helper lemmas -/

/-- `addFlowArgs` distributes over concatenation of traces. -/
theorem addFlowArgs_append (a b : List TimedEvent) :
    addFlowArgs (a ++ b) = addFlowArgs a ++ addFlowArgs b :=
  List.filterMap_append a b _

/-- The `addFlow` arguments of the fan-out are exactly the flows looked up for
the selected ids, in order. -/
theorem addFlowArgs_dupCalls (selected : List String)
    (allFlows : List FlowRecord) :
    addFlowArgs (dupCalls selected allFlows)
      = selected.map fun sf => allFlows.find? fun flow => flow.id == sf := by
  induction selected with
  | nil => rfl
  | cons a l ih =>
      simpa [dupCalls, addFlowArgs, List.filterMap_cons] using ih

/-- The continuation issues no `addFlow` call. -/
theorem addFlowArgs_dupContinuation (folderId : Option String)
    (myCollectionId : String) (t : Nat) :
    addFlowArgs (dupContinuation folderId myCollectionId t) = [] := by
  cases hb : jsFalsyStr folderId || decide (folderId = some myCollectionId) <;>
    simp [dupContinuation, addFlowArgs, hb]

/-- Every settlement time of the `n` requests is below the continuation
time. -/
theorem settle_lt_resolve_succ (n : Nat) (settleTime : Nat → Nat) (i : Nat)
    (hi : i < n) : settleTime i < dupResolveTime n settleTime + 1 :=
  Nat.lt_succ_of_le (Finset.le_sup (Finset.mem_range.mpr hi))

/-! ## Claims -/

set_option maxRecDepth 40000

/-- The concrete parameter record used to exhibit the `getNewJsApiCode`
divergence: a non-streaming call to flow `abc` with authentication
required. -/
def newApiFailingParams : NewApiCodeParams :=
  ⟨false, "abc", true, "hello", "chat", "chat", none, false⟩

/-- A concrete window location. -/
def localhostLocation : WindowLocation :=
  ⟨"http:", "localhost:7860"⟩

/-- C1: the sample code returned by `getNewJsApiCode` does **not** perform the
claimed HTTP POST: the generated snippet builds an `options` object carrying
the POST method, the `x-api-key` header and the JSON body, but its `fetch`
call passes only the URL string — `options` is never used, so the request in
the sample is a plain GET with no body and no API-key header.  Evaluated at
the concrete failing input: the options object, method, header and body lines
are all present in the text, the `fetch` call appears with the URL as its only
argument, and the string `", options"` (the only way the options object could
be passed along) never occurs. -/
theorem getNewJsApiCode_fetch_ignores_options :
    strHasSub (getNewJsApiCode newApiFailingParams localhostLocation)
      "const options = \x7b" = true ∧
    strHasSub (getNewJsApiCode newApiFailingParams localhostLocation)
      "method: \x27POST\x27" = true ∧
    strHasSub (getNewJsApiCode newApiFailingParams localhostLocation)
      "\"x-api-key\": \"YOUR-API-KEY\"" = true ∧
    strHasSub (getNewJsApiCode newApiFailingParams localhostLocation)
      "body: JSON.stringify(payload)" = true ∧
    strHasSub (getNewJsApiCode newApiFailingParams localhostLocation)
      "fetch(\x27http://localhost:7860/api/v1/run/abc?stream=false\x27)\n    .then" = true ∧
    strHasSub (getNewJsApiCode newApiFailingParams localhostLocation)
      ", options" = false := by
  decide

/-- C2: for a non-empty selection whose creation requests all fulfill, the
trace of `handleDuplicate` issues exactly one `addFlow` call per selected id
(with the flow found by that id), the refresh and selection-clearing steps do
run, and every event other than the `addFlow` calls runs strictly after every
settlement time. -/
theorem handleDuplicate_fanout_then_refresh (selected : List String)
    (allFlows : List FlowRecord) (folderId : Option String)
    (myCollectionId : String) (outcome : Nat → Bool) (settleTime : Nat → Nat)
    (_hne : selected ≠ [])
    (hok : (List.range selected.length).all outcome = true) :
    addFlowArgs (useDuplicateFlowsTrace selected allFlows folderId
        myCollectionId outcome settleTime)
      = (selected.map fun sf => allFlows.find? fun flow => flow.id == sf) ∧
    DupEvent.resetFilter ∈ (useDuplicateFlowsTrace selected allFlows folderId
        myCollectionId outcome settleTime).map TimedEvent.event ∧
    DupEvent.setSelectedFlows [] ∈ (useDuplicateFlowsTrace selected allFlows
        folderId myCollectionId outcome settleTime).map TimedEvent.event ∧
    ((useDuplicateFlowsTrace selected allFlows folderId myCollectionId outcome
        settleTime).all fun te =>
      isAddFlowEvent te.event ||
        (List.range selected.length).all fun i =>
          decide (settleTime i < te.time)) = true := by
  have htr : useDuplicateFlowsTrace selected allFlows folderId myCollectionId
      outcome settleTime
      = dupCalls selected allFlows ++
        dupContinuation folderId myCollectionId
          (dupResolveTime selected.length settleTime + 1) := by
    simp [useDuplicateFlowsTrace, hok]
  have hinner : ((List.range selected.length).all fun i =>
      decide (settleTime i < dupResolveTime selected.length settleTime + 1))
        = true :=
    List.all_eq_true.mpr fun i hi =>
      decide_eq_true
        (settle_lt_resolve_succ _ settleTime i (List.mem_range.mp hi))
  refine ⟨?_, ?_, ?_, ?_⟩
  · rw [htr, addFlowArgs_append, addFlowArgs_dupCalls,
      addFlowArgs_dupContinuation, List.append_nil]
  · rw [htr]
    cases hb : jsFalsyStr folderId || decide (folderId = some myCollectionId) <;>
      simp [dupContinuation, hb]
  · rw [htr]
    cases hb : jsFalsyStr folderId || decide (folderId = some myCollectionId) <;>
      simp [dupContinuation, hb]
  · rw [htr, List.all_append]
    have hcalls : ((dupCalls selected allFlows).all fun te =>
        isAddFlowEvent te.event ||
          (List.range selected.length).all fun i =>
            decide (settleTime i < te.time)) = true := by
      simp [dupCalls, List.all_map, isAddFlowEvent, Function.comp]
    have hcont : ((dupContinuation folderId myCollectionId
        (dupResolveTime selected.length settleTime + 1)).all fun te =>
        isAddFlowEvent te.event ||
          (List.range selected.length).all fun i =>
            decide (settleTime i < te.time)) = true := by
      cases hb : jsFalsyStr folderId ||
          decide (folderId = some myCollectionId) <;>
        simp [dupContinuation, hb, isAddFlowEvent, hinner]
    rw [hcalls, hcont]
    rfl

/-- C2 witness: the theorem applied to a singleton selection that fulfills at
time 5. -/
theorem handleDuplicate_fanout_then_refresh_witness :
    (["a"] : List String) ≠ [] ∧
    (List.range (["a"] : List String).length).all (fun _ => true) = true ∧
    (addFlowArgs (useDuplicateFlowsTrace ["a"] [⟨"a", "x"⟩] none "col"
        (fun _ => true) (fun _ => 5))
      = ((["a"] : List String).map fun sf =>
          ([⟨"a", "x"⟩] : List FlowRecord).find? fun flow => flow.id == sf) ∧
    DupEvent.resetFilter ∈ (useDuplicateFlowsTrace ["a"] [⟨"a", "x"⟩] none
        "col" (fun _ => true) (fun _ => 5)).map TimedEvent.event ∧
    DupEvent.setSelectedFlows [] ∈ (useDuplicateFlowsTrace ["a"] [⟨"a", "x"⟩]
        none "col" (fun _ => true) (fun _ => 5)).map TimedEvent.event ∧
    ((useDuplicateFlowsTrace ["a"] [⟨"a", "x"⟩] none "col" (fun _ => true)
        (fun _ => 5)).all fun te =>
      isAddFlowEvent te.event ||
        (List.range (["a"] : List String).length).all fun i =>
          decide ((fun _ => 5) i < te.time)) = true) :=
  ⟨by decide, by decide,
    handleDuplicate_fanout_then_refresh ["a"] [⟨"a", "x"⟩] none "col"
      (fun _ => true) (fun _ => 5) (by decide) (by decide)⟩

/-- C3: when at least one creation request rejects, the trace still contains
exactly one `addFlow` call per selected id (no retry), contains nothing except
the `addFlow` calls and the platform's unhandled rejection (no rollback, no
user-facing error), and in particular none of the refresh or
selection-clearing steps runs. -/
theorem handleDuplicate_partial_failure (selected : List String)
    (allFlows : List FlowRecord) (folderId : Option String)
    (myCollectionId : String) (outcome : Nat → Bool) (settleTime : Nat → Nat)
    (hfail : (List.range selected.length).all outcome = false) :
    addFlowArgs (useDuplicateFlowsTrace selected allFlows folderId
        myCollectionId outcome settleTime)
      = (selected.map fun sf => allFlows.find? fun flow => flow.id == sf) ∧
    ((useDuplicateFlowsTrace selected allFlows folderId myCollectionId outcome
        settleTime).all fun te =>
      isAddFlowEvent te.event ||
        decide (te.event = DupEvent.unhandledRejection)) = true ∧
    DupEvent.unhandledRejection ∈ (useDuplicateFlowsTrace selected allFlows
        folderId myCollectionId outcome settleTime).map TimedEvent.event ∧
    DupEvent.resetFilter ∉ (useDuplicateFlowsTrace selected allFlows folderId
        myCollectionId outcome settleTime).map TimedEvent.event ∧
    DupEvent.setSelectedFlows [] ∉ (useDuplicateFlowsTrace selected allFlows
        folderId myCollectionId outcome settleTime).map TimedEvent.event := by
  have htr : useDuplicateFlowsTrace selected allFlows folderId myCollectionId
      outcome settleTime
      = dupCalls selected allFlows ++
        [⟨dupRejectTime selected.length outcome settleTime + 1,
          DupEvent.unhandledRejection⟩] := by
    simp [useDuplicateFlowsTrace, hfail]
  refine ⟨?_, ?_, ?_, ?_, ?_⟩
  · rw [htr, addFlowArgs_append, addFlowArgs_dupCalls]
    simp [addFlowArgs]
  · rw [htr, List.all_append]
    have hcalls : ((dupCalls selected allFlows).all fun te =>
        isAddFlowEvent te.event ||
          decide (te.event = DupEvent.unhandledRejection)) = true := by
      simp [dupCalls, List.all_map, isAddFlowEvent, Function.comp]
    rw [hcalls]
    rfl
  · rw [htr]
    simp
  · rw [htr]
    simp [dupCalls]
  · rw [htr]
    simp [dupCalls]

/-- C3 witness: the theorem applied to a singleton selection whose only
request rejects. -/
theorem handleDuplicate_partial_failure_witness :
    (List.range (["a"] : List String).length).all (fun _ => false) = false ∧
    (addFlowArgs (useDuplicateFlowsTrace ["a"] [⟨"a", "x"⟩] none "col"
        (fun _ => false) (fun _ => 5))
      = ((["a"] : List String).map fun sf =>
          ([⟨"a", "x"⟩] : List FlowRecord).find? fun flow => flow.id == sf) ∧
    ((useDuplicateFlowsTrace ["a"] [⟨"a", "x"⟩] none "col" (fun _ => false)
        (fun _ => 5)).all fun te =>
      isAddFlowEvent te.event ||
        decide (te.event = DupEvent.unhandledRejection)) = true ∧
    DupEvent.unhandledRejection ∈ (useDuplicateFlowsTrace ["a"] [⟨"a", "x"⟩]
        none "col" (fun _ => false) (fun _ => 5)).map TimedEvent.event ∧
    DupEvent.resetFilter ∉ (useDuplicateFlowsTrace ["a"] [⟨"a", "x"⟩] none
        "col" (fun _ => false) (fun _ => 5)).map TimedEvent.event ∧
    DupEvent.setSelectedFlows [] ∉ (useDuplicateFlowsTrace ["a"] [⟨"a", "x"⟩]
        none "col" (fun _ => false) (fun _ => 5)).map TimedEvent.event) :=
  ⟨by decide,
    handleDuplicate_partial_failure ["a"] [⟨"a", "x"⟩] none "col"
      (fun _ => false) (fun _ => 5) (by decide)⟩

/-- The parameter record used for the C4 counterexample. -/
def jsParams : GetCodeType :=
  ⟨"fid", true, none, none, false⟩

/-- C4 counterexample: two invocations of `getJsApiCode` with equal parameter
records return different text when the global flow store differs (here: one
store declares a `ChatOutput` port, the other does not), so the function is
not pure in its parameter record alone. -/
theorem getJsApiCode_reads_global_state :
    getJsApiCode jsParams ⟨[], [], []⟩ localhostLocation ≠
    getJsApiCode jsParams ⟨[], [⟨"n1", "ChatOutput"⟩], []⟩ localhostLocation := by
  decide

/-- C4 (amended): `getJsApiCode` is deterministic in its parameter record
together with the ambient state it actually reads — the flow store's declared
input and output ports and the window location; any other program state (for
example the store's node list) cannot affect the returned text. -/
theorem getJsApiCode_deterministic_given_ambient (p : GetCodeType)
    (s₁ s₂ : FlowStoreState) (l₁ l₂ : WindowLocation)
    (hin : s₁.inputs = s₂.inputs) (hout : s₁.outputs = s₂.outputs)
    (hloc : l₁ = l₂) :
    getJsApiCode p s₁ l₁ = getJsApiCode p s₂ l₂ := by
  subst hloc
  simp only [getJsApiCode, hin, hout]

/-- C4 amended witness: two stores that agree on ports but hold different node
lists produce identical text. -/
theorem getJsApiCode_deterministic_given_ambient_witness :
    (FlowStoreState.mk [] [] ["node"]).inputs
      = (FlowStoreState.mk [] [] []).inputs ∧
    (FlowStoreState.mk [] [] ["node"]).outputs
      = (FlowStoreState.mk [] [] []).outputs ∧
    getJsApiCode jsParams (FlowStoreState.mk [] [] ["node"]) localhostLocation
      = getJsApiCode jsParams (FlowStoreState.mk [] [] []) localhostLocation :=
  ⟨rfl, rfl,
    getJsApiCode_deterministic_given_ambient jsParams _ _ _ _ rfl rfl rfl⟩

/-- C5: for every parameter record and location there are fixed strings
`pre`, `mid`, `post` — independent of the flow store — such that the generated
text is `pre`, then the `output_type` literal (`"chat"` exactly when some
declared output port has type `ChatOutput`, `"text"` otherwise), then `mid`,
then the `input_type` literal (`"chat"` exactly when some declared input port
has type `ChatInput`, `"text"` otherwise), then `post`: the declared ports
influence the text in no other way. -/
theorem getJsApiCode_ports_choose_chat_literals (p : GetCodeType)
    (loc : WindowLocation) :
    ∃ pre mid post : String, ∀ store : FlowStoreState,
      getJsApiCode p store loc =
        pre ++
        (if store.outputs.any (fun output => output.type == "ChatOutput")
         then "\"chat\"" else "\"text\"") ++
        mid ++
        (if store.inputs.any (fun input => input.type == "ChatInput")
         then "\"chat\"" else "\"text\"") ++
        post :=
  ⟨jsApiCodeHead p loc, ",\n      input_type: ", jsApiCodeTail p,
    fun _ => rfl⟩

/-- C6: with the rename editor open, pressing Enter closes the editor and
invokes the rename callback exactly once, with the file's id and the current
input buffer. -/
theorem renameInput_enter_commits_once (file : FileType) (st : CompState)
    (hopen : st.openRename = true) :
    (renameInputKeyDown file true st "Enter").1.openRename = false ∧
    (renameInputKeyDown file true st "Enter").2
      = [Callback.rename file.id st.newName] := by
  constructor <;>
    simp [renameInputKeyDown, renameInputBlur, applyRenameEffect, hopen]

/-- C6 witness: Enter on an open editor with buffer `new.txt` for file `f1`
emits exactly one rename call. -/
theorem renameInput_enter_commits_once_witness :
    (CompState.mk true "new.txt").openRename = true ∧
    ((renameInputKeyDown (FileType.mk "f1" "old.txt" "dir/old.txt" none) true
        (CompState.mk true "new.txt") "Enter").1.openRename = false ∧
     (renameInputKeyDown (FileType.mk "f1" "old.txt" "dir/old.txt" none) true
        (CompState.mk true "new.txt") "Enter").2
        = [Callback.rename "f1" "new.txt"]) :=
  ⟨rfl,
    renameInput_enter_commits_once (FileType.mk "f1" "old.txt" "dir/old.txt" none)
      (CompState.mk true "new.txt") rfl⟩

/-- C7: a file whose progress equals the failure sentinel `-1` renders the
text "Upload failed, try again?", and the handler attached to the "try again?"
span stops event propagation and performs no other action — in particular no
retry. -/
theorem failed_upload_notice_static (file : FileType)
    (h : file.progress = some (-1)) :
    failedNotice file
      = some ⟨"Upload failed, try again?", ⟨true, []⟩⟩ := by
  simp [failedNotice, h]

/-- C7 witness: the notice rendered for a concrete failed upload. -/
theorem failed_upload_notice_static_witness :
    (FileType.mk "f1" "a.txt" "a.txt" (some (-1))).progress = some (-1) ∧
    failedNotice (FileType.mk "f1" "a.txt" "a.txt" (some (-1)))
      = some ⟨"Upload failed, try again?", ⟨true, []⟩⟩ :=
  ⟨rfl,
    failed_upload_notice_static (FileType.mk "f1" "a.txt" "a.txt" (some (-1)))
      rfl⟩

/-- C8: a file whose progress is exactly `0` behaves like a file with no
progress field at all: clicking the row invokes the file-select callback and
double-clicking the name opens the rename editor, because both guards test the
falsiness of `progress` rather than its presence. -/
theorem zero_progress_behaves_as_absent (file : FileType) (st : CompState)
    (hp : file.progress = some 0) (hclosed : st.openRename = false) :
    rowClickCalls file true = [Callback.fileSelect file.path] ∧
    (nameDoubleClick file st).openRename = true ∧
    rowClickCalls file true = rowClickCalls { file with progress := none } true ∧
    nameDoubleClick file st = nameDoubleClick { file with progress := none } st := by
  refine ⟨?_, ?_, ?_, ?_⟩ <;>
    simp [rowClickCalls, nameDoubleClick, progressTruthy, hp,
      applyRenameEffect, hclosed]

/-- C8 witness: a concrete file uploading at zero percent. -/
theorem zero_progress_behaves_as_absent_witness :
    (FileType.mk "f1" "a.txt" "a.txt" (some 0)).progress = some 0 ∧
    (CompState.mk false "a.txt").openRename = false ∧
    (rowClickCalls (FileType.mk "f1" "a.txt" "a.txt" (some 0)) true
        = [Callback.fileSelect "a.txt"] ∧
     (nameDoubleClick (FileType.mk "f1" "a.txt" "a.txt" (some 0))
        (CompState.mk false "a.txt")).openRename = true ∧
     rowClickCalls (FileType.mk "f1" "a.txt" "a.txt" (some 0)) true
        = rowClickCalls (FileType.mk "f1" "a.txt" "a.txt" none) true ∧
     nameDoubleClick (FileType.mk "f1" "a.txt" "a.txt" (some 0))
        (CompState.mk false "a.txt")
        = nameDoubleClick (FileType.mk "f1" "a.txt" "a.txt" none)
            (CompState.mk false "a.txt")) :=
  ⟨rfl, rfl,
    zero_progress_behaves_as_absent (FileType.mk "f1" "a.txt" "a.txt" (some 0))
      (CompState.mk false "a.txt") (by decide) rfl⟩

/-- C9: when the path's extension has no entry in the icon table, the icon
rendered for a completed file is the fallback `File` with no color class, and
for a failed upload it is the fallback `File` with the placeholder color
class (not an extension-specific one); `leadingVisual` is total, so the row
always renders. -/
theorem icon_fallback_on_unknown_extension
    (icons : String → Option IconEntry) (file : FileType)
    (hmiss : icons (fileTypeOf file.path) = none)
    (hicon : file.progress = none ∨ file.progress = some (-1)) :
    leadingVisual icons file
      = .icon "File" (file.progress.map fun _ => "text-placeholder-foreground") := by
  rcases hicon with h | h <;>
    simp [leadingVisual, h, hmiss]

/-- C9 witness: a completed file with an extension missing from an empty icon
table renders the fallback icon with no color. -/
theorem icon_fallback_on_unknown_extension_witness :
    ((fun _ => none) : String → Option IconEntry)
      (fileTypeOf "archive.xyz") = none ∧
    ((FileType.mk "f1" "archive.xyz" "archive.xyz" none).progress = none ∨
      (FileType.mk "f1" "archive.xyz" "archive.xyz" none).progress = some (-1)) ∧
    leadingVisual (fun _ => none)
        (FileType.mk "f1" "archive.xyz" "archive.xyz" none)
      = .icon "File"
          ((FileType.mk "f1" "archive.xyz" "archive.xyz" none).progress.map
            fun _ => "text-placeholder-foreground") :=
  ⟨rfl, Or.inl rfl,
    icon_fallback_on_unknown_extension (fun _ => none)
      (FileType.mk "f1" "archive.xyz" "archive.xyz" none) rfl (Or.inl rfl)⟩

/-- C10: opening the rename editor resets the buffer to the file's current
name, and a blur with no keystrokes closes the editor and invokes the rename
callback with the file's id and that unchanged name. -/
theorem rename_blur_commits_buffer (file : FileType) (st : CompState)
    (hclosed : st.openRename = false) :
    (handleOpenRename file true st).openRename = true ∧
    (handleOpenRename file true st).newName = file.name ∧
    renameInputBlur file true (handleOpenRename file true st)
      = (⟨false, file.name⟩, [Callback.rename file.id file.name]) := by
  refine ⟨?_, ?_, ?_⟩ <;>
    simp [handleOpenRename, renameInputBlur, applyRenameEffect, hclosed]

/-- C10 witness: opening the editor on `report.pdf` and immediately blurring
commits the unchanged name. -/
theorem rename_blur_commits_buffer_witness :
    (CompState.mk false "stale").openRename = false ∧
    ((handleOpenRename (FileType.mk "f2" "report.pdf" "report.pdf" none) true
        (CompState.mk false "stale")).openRename = true ∧
     (handleOpenRename (FileType.mk "f2" "report.pdf" "report.pdf" none) true
        (CompState.mk false "stale")).newName = "report.pdf" ∧
     renameInputBlur (FileType.mk "f2" "report.pdf" "report.pdf" none) true
        (handleOpenRename (FileType.mk "f2" "report.pdf" "report.pdf" none)
          true (CompState.mk false "stale"))
        = (⟨false, "report.pdf"⟩, [Callback.rename "f2" "report.pdf"])) :=
  ⟨rfl,
    rename_blur_commits_buffer (FileType.mk "f2" "report.pdf" "report.pdf" none)
      (CompState.mk false "stale") rfl⟩

end Langflow
